import Mathlib

/-!
Shallow embedding of `src/cover.py` (Smart ATS Resume Analyzer, a Streamlit
script). The script's `main` runs top-to-bottom on every UI event; we model
one run of `main` as a pure function of

  * the external collaborators (`Env`): `configure_genai`, `extract_pdf_text`,
    `prepare_prompt`, `get_gemini_response` (all imported from `helper`, which
    is outside the analysed source and so kept abstract), and Python's
    `json.loads` (standard library, kept abstract as a function that either
    returns a decoded value or raises `JSONDecodeError`);
  * the environment variable `GOOGLE_API_KEY` (an `Option String`);
  * the widget inputs of this run (`Inputs`);
  * the persisted session flag `st.session_state.processing`;
  * the UI event that triggered the rerun (`Event`): which button, if any,
    was clicked. Streamlit delivers at most one button click per rerun, and
    `st.button(..., disabled := flag)` returns `true` only when the button was
    clicked on this rerun and was not disabled.

The run produces the ordered list of rendered widgets, the final value of the
`processing` flag, and call counts for the external effects.
-/

/-- Python values as produced by `json.loads` (and used by `st.write`,
`st.metric`, `dict.get`, truthiness tests and `str.join`). -/
inductive PyVal where
  | str : String → PyVal
  | int : Int → PyVal
  | bool : Bool → PyVal
  | list : List PyVal → PyVal
  | dict : List (String × PyVal) → PyVal
  | null : PyVal

/-- First-match association-list lookup, the behaviour of Python `dict`
lookup on the (unique-key) dictionaries `json.loads` produces. -/
def dictLookup : List (String × PyVal) → String → Option PyVal
  | [], _ => Option.none
  | (k, v) :: rest, key => if k = key then Option.some v else dictLookup rest key

/-- Python `obj.get(key, default)`: defined on `dict` (value if present,
default otherwise); on any other receiver Python raises `AttributeError`. -/
def pyGet : PyVal → String → PyVal → Except String PyVal
  | PyVal.dict d, key, dflt => Except.ok ((dictLookup d key).getD dflt)
  | _, _, _ => Except.error "AttributeError: object has no attribute get"

/-- Python truthiness (`if x:`). -/
def pyTruthy : PyVal → Bool
  | PyVal.str s => !s.isEmpty
  | PyVal.int n => n != 0
  | PyVal.bool b => b
  | PyVal.list l => !l.isEmpty
  | PyVal.dict d => !d.isEmpty
  | PyVal.null => false

/-- View a Python list as a list of strings, when every element is a `str`
(the precondition of `str.join`). -/
def asStrList : List PyVal → Option (List String)
  | [] => Option.some []
  | PyVal.str s :: rest => (asStrList rest).map (fun ss => s :: ss)
  | _ => Option.none

/-- Python `sep.join(x)`: joins a list of strings; joins the characters when
`x` is itself a string; raises `TypeError` otherwise. -/
def pyJoin (sep : String) : PyVal → Except String String
  | PyVal.list xs =>
    match asStrList xs with
    | Option.some ss => Except.ok (String.intercalate sep ss)
    | Option.none => Except.error "TypeError: sequence item: expected str instance"
  | PyVal.str s => Except.ok (String.intercalate sep (s.data.map String.singleton))
  | _ => Except.error "TypeError: can only join an iterable"

/-- One rendered Streamlit widget, in render order. -/
inductive Widget where
  | title : String → Widget
  | subheader : String → Widget
  | writeText : String → Widget
  | writeVal : PyVal → Widget
  | warning : String → Widget
  | errorBox : String → Widget
  | successBox : String → Widget
  | metric : String → PyVal → Widget
  | textArea : String → Widget
  | fileUploader : String → Widget
  | textInput : String → Widget
  | button : String → Bool → Widget
  | spinner : String → Widget
  | downloadButton : String → String → String → String → Widget

/-- The external collaborators of `cover.py`. `configure_genai`,
`extract_pdf_text`, `prepare_prompt` and `get_gemini_response` come from
`helper` (an external module); `json_loads` is Python's `json.loads`.
Fallible calls return `Except`: `Except.error e` models a raised exception
whose `str(e)` is `e`. PDF uploads are modelled as opaque byte strings. -/
structure Env where
  configure_genai : String → Except String Unit
  extract_pdf_text : String → Except String String
  prepare_prompt : String → String → String
  get_gemini_response : String → Except String String
  json_loads : String → Except String PyVal

/-- Counts of calls made to the external effectful collaborators during one
run: PDF extractions, `prepare_prompt` builds, Gemini API calls. -/
structure Counts where
  extractCalls : Nat
  promptCalls : Nat
  geminiCalls : Nat

def Counts.zero : Counts := ⟨0, 0, 0⟩

/-- The widget inputs read by one run of `main`. `uploaded_file` is `none`
when no PDF has been uploaded. -/
structure Inputs where
  jd : String
  uploaded_file : Option String
  company_name : String
  job_title : String
  personal_message : String

/-- The UI event that triggered this rerun of the script: no button click,
the Analyze Resume button, or the Generate Cover Letter button. -/
inductive Event where
  | noEvent : Event
  | analyzeClick : Event
  | coverClick : Event
deriving DecidableEq

/-- Result of one button handler: widgets it rendered, the value of
`st.session_state.processing` after it (the `finally` block included),
external-call counts, and whether it executed `return` (halting `main`). -/
structure HandlerOut where
  widgets : List Widget
  processing : Bool
  counts : Counts
  halted : Bool

/-- Body of the Analyze `try:` block (`cover.py` lines 79–107): extraction,
prompt build, Gemini call, `json.loads`, then the result rendering.  Returns
the widgets rendered before any exception, the external-call counts, and the
message of the raised exception if one was raised. -/
def analyzeBody (env : Env) (jd file : String) : List Widget × Counts × Option String :=
  let sp := [Widget.spinner "📊 Analyzing your resume..."]
  match env.extract_pdf_text file with
  | Except.error e => (sp, ⟨1, 0, 0⟩, Option.some e)
  | Except.ok resume_text =>
    let input_prompt := env.prepare_prompt resume_text jd
    match env.get_gemini_response input_prompt with
    | Except.error e => (sp, ⟨1, 1, 1⟩, Option.some e)
    | Except.ok response =>
      match env.json_loads response with
      | Except.error e => (sp, ⟨1, 1, 1⟩, Option.some e)
      | Except.ok response_json =>
        let c : Counts := ⟨1, 1, 1⟩
        let w1 := sp ++ [Widget.successBox "✨ Analysis Complete!"]
        match pyGet response_json "JD Match" (PyVal.str "N/A") with
        | Except.error e => (w1, c, Option.some e)
        | Except.ok match_percentage =>
          let w2 := w1 ++ [Widget.metric "Match Score" match_percentage,
                           Widget.subheader "Missing Keywords"]
          match pyGet response_json "MissingKeywords" (PyVal.list []) with
          | Except.error e => (w2, c, Option.some e)
          | Except.ok missing_keywords =>
            match (if pyTruthy missing_keywords then
                     (pyJoin ", " missing_keywords).map Widget.writeText
                   else
                     Except.ok (Widget.writeText "No critical missing keywords found!")) with
            | Except.error e => (w2, c, Option.some e)
            | Except.ok kwWidget =>
              let w3 := w2 ++ [kwWidget, Widget.subheader "Profile Summary"]
              match pyGet response_json "Profile Summary" (PyVal.str "No summary available") with
              | Except.error e => (w3, c, Option.some e)
              | Except.ok summary => (w3 ++ [Widget.writeVal summary], c, Option.none)

/-- The Analyze Resume handler (`cover.py` lines 68–113), entered when the
button click was accepted: input validation with early `return`, then
`processing := true`, the `try:` body, `except` rendering the error, and
`finally: processing := false`. -/
def analyzeAction (env : Env) (jd : String) (uploaded_file : Option String) : HandlerOut :=
  if jd = "" then
    { widgets := [Widget.warning "Please provide a job description."],
      processing := false, counts := Counts.zero, halted := true }
  else
    match uploaded_file with
    | Option.none =>
      { widgets := [Widget.warning "Please upload a resume in PDF format."],
        processing := false, counts := Counts.zero, halted := true }
    | Option.some file =>
      match analyzeBody env jd file with
      | (ws, c, Option.some e) =>
        { widgets := ws ++ [Widget.errorBox ("An error occurred: " ++ e)],
          processing := false, counts := c, halted := false }
      | (ws, c, Option.none) =>
        { widgets := ws, processing := false, counts := c, halted := false }

/-- The f-string of `cover.py` lines 126–140 building the cover-letter
prompt. -/
def coverLetterPrompt (job_title company_name personal_message resume_text jd : String) : String :=
  "\n                Act as an expert cover letter writer. Write a personalized cover letter for the following job application:\n\n                Job Title: " ++ job_title ++
  "\n                Company: " ++ company_name ++
  "\n                Personal Message: " ++ personal_message ++
  "\n\n                Resume:\n                " ++ resume_text ++
  "\n\n                Job Description:\n                " ++ jd ++
  "\n\n                Provide a professional and persuasive cover letter.\n                "

/-- The Generate Cover Letter handler (`cover.py` lines 117–161), entered
when the button click was accepted. `resume_text?` is the state of the local
variable `resume_text` at that point: `none` when it was never assigned in
this run of `main` (the f-string then raises `NameError`), `some rt` when the
Analyze branch of the same run assigned it. -/
def coverAction (env : Env) (company_name job_title personal_message jd : String)
    (resume_text? : Option String) : HandlerOut :=
  if company_name = "" ∨ job_title = "" then
    { widgets := [Widget.warning "Please provide company name and job title for the cover letter."],
      processing := false, counts := Counts.zero, halted := true }
  else
    let sp := [Widget.spinner "📝 Generating cover letter..."]
    match resume_text? with
    | Option.none =>
      { widgets := sp ++ [Widget.errorBox "An error occurred: name resume_text is not defined"],
        processing := false, counts := Counts.zero, halted := false }
    | Option.some resume_text =>
      let prompt := coverLetterPrompt job_title company_name personal_message resume_text jd
      match env.get_gemini_response prompt with
      | Except.error e =>
        { widgets := sp ++ [Widget.errorBox ("An error occurred: " ++ e)],
          processing := false, counts := ⟨0, 0, 1⟩, halted := false }
      | Except.ok cover_letter =>
        { widgets := sp ++ [Widget.subheader "Generated Cover Letter",
                            Widget.writeText cover_letter,
                            Widget.downloadButton "Download Cover Letter" cover_letter
                              "cover_letter.txt" "text/plain"],
          processing := false, counts := ⟨0, 0, 1⟩, halted := false }

/-- The sidebar and static form widgets rendered by `main` before the two
buttons (`cover.py` lines 34–64). -/
def formWidgets : List Widget :=
  [Widget.title "🎯 Smart ATS",
   Widget.subheader "About",
   Widget.writeText " \n        This smart ATS helps you:\n        - Evaluate resume-job description match\n        - Identify missing keywords\n        - Get personalized improvement suggestions\n        ",
   Widget.title "📄 Smart ATS Resume Analyzer",
   Widget.subheader "Optimize Your Resume for ATS",
   Widget.textArea "Job Description",
   Widget.fileUploader "Resume (PDF)",
   Widget.textInput "Company Name",
   Widget.textInput "Job Title",
   Widget.textArea "Personal Message"]

/-- Result of one full run of `main`: all rendered widgets in order, the
final `processing` flag, and external-call counts. -/
structure RunResult where
  widgets : List Widget
  processing : Bool
  counts : Counts

/-- One run of `main` (`cover.py` lines 14–161). `api_key` is the value of
the `GOOGLE_API_KEY` environment variable; `processing0` the persisted
session flag at the start of the run; `ev` the click that triggered the
rerun. A `st.button` call returns true only when it was clicked this run and
not disabled; `disabled` is the current `processing` flag. A `return` inside
a branch ends the run, skipping everything after it. -/
def mainRun (env : Env) (api_key : Option String) (inp : Inputs)
    (processing0 : Bool) (ev : Event) : RunResult :=
  match api_key with
  | Option.none =>
    { widgets := [Widget.errorBox "Please set the GOOGLE_API_KEY in your .env file"],
      processing := processing0, counts := Counts.zero }
  | Option.some key =>
    match env.configure_genai key with
    | Except.error e =>
      { widgets := [Widget.errorBox ("Failed to configure API: " ++ e)],
        processing := processing0, counts := Counts.zero }
    | Except.ok _ =>
      let base := formWidgets ++ [Widget.button "Analyze Resume" processing0]
      if ev = Event.analyzeClick ∧ processing0 = false then
        let h := analyzeAction env inp.jd inp.uploaded_file
        if h.halted then
          { widgets := base ++ h.widgets, processing := processing0, counts := h.counts }
        else
          { widgets := base ++ h.widgets ++ [Widget.button "Generate Cover Letter" h.processing],
            processing := h.processing, counts := h.counts }
      else
        let base2 := base ++ [Widget.button "Generate Cover Letter" processing0]
        if ev = Event.coverClick ∧ processing0 = false then
          let h := coverAction env inp.company_name inp.job_title inp.personal_message inp.jd
                     Option.none
          { widgets := base2 ++ h.widgets, processing := h.processing, counts := h.counts }
        else
          { widgets := base2, processing := processing0, counts := Counts.zero }

/-! ## Sample environments and inputs (used by the witness theorems) -/

/-- A deterministic stub environment: extraction returns the raw bytes, the
model returns a fixed non-JSON string, `json.loads` therefore fails. -/
def sampleEnv : Env :=
  { configure_genai := fun _ => Except.ok Unit.unit
  , extract_pdf_text := fun b => Except.ok b
  , prepare_prompt := fun resume jd => resume ++ "\n" ++ jd
  , get_gemini_response := fun _ => Except.ok "RESPONSE"
  , json_loads := fun _ => Except.error "Expecting value: line 1 column 1 (char 0)" }

/-- A decoded analysis dictionary with all three expected keys. -/
def analysisDict : List (String × PyVal) :=
  [("JD Match", PyVal.str "80%"),
   ("MissingKeywords", PyVal.list [PyVal.str "Kubernetes", PyVal.str "Go"]),
   ("Profile Summary", PyVal.str "Strong backend candidate")]

/-- Stub environment whose model response decodes to `analysisDict`. -/
def sampleEnvDict : Env :=
  { sampleEnv with json_loads := fun _ => Except.ok (PyVal.dict analysisDict) }

/-- Stub environment whose model response decodes to a dictionary with an
empty keyword list and no summary key. -/
def sampleEnvEmptyKw : Env :=
  { sampleEnv with
      json_loads := fun _ =>
        Except.ok (PyVal.dict [("JD Match", PyVal.str "10%"),
                               ("MissingKeywords", PyVal.list [])]) }

/-- Stub environment whose API configuration is rejected. -/
def sampleEnvCfgFail : Env :=
  { sampleEnv with configure_genai := fun _ => Except.error "invalid key" }

/-- A concrete valid set of form inputs. -/
def sampleInputs : Inputs :=
  { jd := "We need Go developers"
  , uploaded_file := Option.some "PDFBYTES"
  , company_name := "Acme"
  , job_title := "Engineer"
  , personal_message := "Hello" }

/-! ## Helper lemmas -/

/-- Every exit path of the Analyze handler leaves `processing` false. -/
theorem analyzeAction_processing (env : Env) (jd : String) (uf : Option String) :
    (analyzeAction env jd uf).processing = false := by
  unfold analyzeAction
  split
  · rfl
  · split
    · rfl
    · split <;> rfl

/-- Every exit path of the cover-letter handler leaves `processing` false. -/
theorem coverAction_processing (env : Env) (cn jt pm jd : String) (rt? : Option String) :
    (coverAction env cn jt pm jd rt?).processing = false := by
  unfold coverAction
  split
  · rfl
  · split
    · rfl
    · dsimp only
      split <;> rfl

/-- A run of `main` that starts with `processing = false` ends with
`processing = false`, whatever the event and environment. -/
theorem mainRun_processing_false (env : Env) (api_key : Option String) (inp : Inputs)
    (ev : Event) : (mainRun env api_key inp false ev).processing = false := by
  cases api_key with
  | none => rfl
  | some key =>
    cases hcfg : env.configure_genai key with
    | error e => simp [mainRun, hcfg]
    | ok u =>
      by_cases hev : ev = Event.analyzeClick
      · subst hev
        simp only [mainRun, hcfg]
        simp only [and_self, if_true, reduceIte]
        cases hh : (analyzeAction env inp.jd inp.uploaded_file).halted <;>
          simp [hh, analyzeAction_processing]
      · by_cases hev2 : ev = Event.coverClick
        · subst hev2
          simp [mainRun, hcfg, coverAction_processing]
        · simp [mainRun, hcfg, hev, hev2]

/-- Every element of `l.map PyVal.str` is a string, so `asStrList` recovers
`l` itself. -/
theorem asStrList_map_str (l : List String) : asStrList (l.map PyVal.str) = Option.some l := by
  induction l with
  | nil => rfl
  | cons a t ih => simp [asStrList, ih]

/-! ## Claims -/

/-- C1: For every in-flight action (Analyze or Generate Cover Letter) that
passed validation and set `processing` to true, the `processing` flag is
false again when the action completes, on the success path and on every
error path alike — the environment (and hence every extraction, generation
or parse outcome) is universally quantified. -/
theorem inflight_action_releases_processing (env : Env)
    (jd file cn jt pm jd2 : String) (rt? : Option String) (hjd : jd ≠ "") :
    (analyzeAction env jd (Option.some file)).processing = false ∧
    (cn ≠ "" → jt ≠ "" → (coverAction env cn jt pm jd2 rt?).processing = false) :=
  ⟨analyzeAction_processing env jd (Option.some file),
   fun _ _ => coverAction_processing env cn jt pm jd2 rt?⟩

theorem inflight_action_releases_processing_witness :
    (analyzeAction sampleEnv "We need Go developers" (Option.some "PDFBYTES")).processing = false ∧
    ("Acme" ≠ "" → "Engineer" ≠ "" →
      (coverAction sampleEnv "Acme" "Engineer" "Hello" "We need Go developers"
        Option.none).processing = false) :=
  inflight_action_releases_processing sampleEnv "We need Go developers" "PDFBYTES"
    "Acme" "Engineer" "Hello" "We need Go developers" Option.none (by decide)

/-- C4: When the job description is empty or no PDF is uploaded, Analyze
makes no extraction, no prompt build and no API call, leaves `processing`
false, and renders exactly one warning. -/
theorem analyze_missing_inputs_abort (env : Env) (jd : String) (uf : Option String)
    (h : jd = "" ∨ uf = Option.none) :
    (analyzeAction env jd uf).counts.extractCalls = 0 ∧
    (analyzeAction env jd uf).counts.promptCalls = 0 ∧
    (analyzeAction env jd uf).counts.geminiCalls = 0 ∧
    (analyzeAction env jd uf).processing = false ∧
    ∃ msg, (analyzeAction env jd uf).widgets = [Widget.warning msg] := by
  by_cases hjd : jd = ""
  · subst hjd
    simp [analyzeAction, Counts.zero]
  · rcases h with h | h
    · exact absurd h hjd
    · subst h
      simp [analyzeAction, hjd, Counts.zero]

theorem analyze_missing_inputs_abort_witness :
    (analyzeAction sampleEnv "" Option.none).counts.extractCalls = 0 ∧
    (analyzeAction sampleEnv "" Option.none).counts.promptCalls = 0 ∧
    (analyzeAction sampleEnv "" Option.none).counts.geminiCalls = 0 ∧
    (analyzeAction sampleEnv "" Option.none).processing = false ∧
    ∃ msg, (analyzeAction sampleEnv "" Option.none).widgets = [Widget.warning msg] :=
  analyze_missing_inputs_abort sampleEnv "" Option.none (Or.inl rfl)

/-- C5: When the company name or the job title is empty, Generate Cover
Letter makes no API call, leaves `processing` false, and renders exactly the
validation warning (aborting before any prompt is built). -/
theorem cover_missing_inputs_abort (env : Env) (cn jt pm jd : String) (rt? : Option String)
    (h : cn = "" ∨ jt = "") :
    (coverAction env cn jt pm jd rt?).counts.geminiCalls = 0 ∧
    (coverAction env cn jt pm jd rt?).processing = false ∧
    (coverAction env cn jt pm jd rt?).widgets =
      [Widget.warning "Please provide company name and job title for the cover letter."] := by
  unfold coverAction
  rw [if_pos h]
  exact ⟨rfl, rfl, rfl⟩

theorem cover_missing_inputs_abort_witness :
    (coverAction sampleEnv "" "Engineer" "Hello" "jd" Option.none).counts.geminiCalls = 0 ∧
    (coverAction sampleEnv "" "Engineer" "Hello" "jd" Option.none).processing = false ∧
    (coverAction sampleEnv "" "Engineer" "Hello" "jd" Option.none).widgets =
      [Widget.warning "Please provide company name and job title for the cover letter."] :=
  cover_missing_inputs_abort sampleEnv "" "Engineer" "Hello" "jd" Option.none (Or.inl rfl)

/-- C6: While `processing` is true, both buttons are rendered disabled and
no click is dispatched (the run renders only the form and makes zero
external calls, leaving the state untouched); and a run starting from
`processing = false` ends with `processing = false` on every completion
path. -/
theorem busy_flag_mutual_exclusion (env : Env) (key : String) (u : Unit) (inp : Inputs)
    (ev : Event) (hcfg : env.configure_genai key = Except.ok u) :
    mainRun env (Option.some key) inp true ev =
      { widgets := formWidgets ++ [Widget.button "Analyze Resume" true,
                                   Widget.button "Generate Cover Letter" true],
        processing := true, counts := Counts.zero } ∧
    (mainRun env (Option.some key) inp false ev).processing = false := by
  constructor
  · simp [mainRun, hcfg]
  · exact mainRun_processing_false env (Option.some key) inp ev

theorem busy_flag_mutual_exclusion_witness :
    mainRun sampleEnv (Option.some "k") sampleInputs true Event.analyzeClick =
      { widgets := formWidgets ++ [Widget.button "Analyze Resume" true,
                                   Widget.button "Generate Cover Letter" true],
        processing := true, counts := Counts.zero } ∧
    (mainRun sampleEnv (Option.some "k") sampleInputs false Event.analyzeClick).processing
      = false :=
  busy_flag_mutual_exclusion sampleEnv "k" Unit.unit sampleInputs Event.analyzeClick rfl

/-- C9: Running Analyze a second time, starting from the session state the
first run left behind, with the same inputs and the same deterministic
environment, produces exactly the same run result (widgets, flag and
counts). -/
theorem analyze_idempotent (env : Env) (key : String) (inp : Inputs) :
    mainRun env (Option.some key) inp
      (mainRun env (Option.some key) inp false Event.analyzeClick).processing
      Event.analyzeClick
    = mainRun env (Option.some key) inp false Event.analyzeClick := by
  rw [mainRun_processing_false]

/-- C2: When the model response is not valid JSON (`json.loads` raises), the
Analyze path renders the parse failure as an error message and renders no
analysis result at all — no success banner, no metric, no keywords, no
summary, and `processing` is released. -/
theorem parse_failure_surfaced (env : Env) (jd file rt resp e : String)
    (hjd : jd ≠ "")
    (hex : env.extract_pdf_text file = Except.ok rt)
    (hgem : env.get_gemini_response (env.prepare_prompt rt jd) = Except.ok resp)
    (hjson : env.json_loads resp = Except.error e) :
    analyzeAction env jd (Option.some file) =
      { widgets := [Widget.spinner "📊 Analyzing your resume...",
                    Widget.errorBox ("An error occurred: " ++ e)],
        processing := false, counts := ⟨1, 1, 1⟩, halted := false } := by
  unfold analyzeAction analyzeBody
  simp [hjd, hex, hgem, hjson]

theorem parse_failure_surfaced_witness :
    analyzeAction sampleEnv "We need Go developers" (Option.some "PDFBYTES") =
      { widgets := [Widget.spinner "📊 Analyzing your resume...",
                    Widget.errorBox
                      ("An error occurred: " ++ "Expecting value: line 1 column 1 (char 0)")],
        processing := false, counts := ⟨1, 1, 1⟩, halted := false } :=
  parse_failure_surfaced sampleEnv "We need Go developers" "PDFBYTES" "PDFBYTES" "RESPONSE"
    "Expecting value: line 1 column 1 (char 0)" (by decide) rfl rfl rfl

/-- C3: When the model response decodes as a JSON object, the render uses
the value at key `JD Match` (default `N/A`) as the match score, the value at
`MissingKeywords` joined with a comma-space in insertion order without
deduplication as the keywords line, and the value at `Profile Summary`
(default placeholder) as the summary; absent keys fall back to their
defaults and never cause a failure. -/
theorem analysis_render_defaults (env : Env) (jd file rt resp : String)
    (d : List (String × PyVal)) (mks : List String)
    (hjd : jd ≠ "")
    (hex : env.extract_pdf_text file = Except.ok rt)
    (hgem : env.get_gemini_response (env.prepare_prompt rt jd) = Except.ok resp)
    (hjson : env.json_loads resp = Except.ok (PyVal.dict d))
    (hmk : dictLookup d "MissingKeywords" = Option.some (PyVal.list (mks.map PyVal.str)) ∨
           (dictLookup d "MissingKeywords" = Option.none ∧ mks = [])) :
    analyzeAction env jd (Option.some file) =
      { widgets := [Widget.spinner "📊 Analyzing your resume...",
                    Widget.successBox "✨ Analysis Complete!",
                    Widget.metric "Match Score" ((dictLookup d "JD Match").getD (PyVal.str "N/A")),
                    Widget.subheader "Missing Keywords",
                    Widget.writeText (if mks.isEmpty then "No critical missing keywords found!"
                                      else String.intercalate ", " mks),
                    Widget.subheader "Profile Summary",
                    Widget.writeVal
                      ((dictLookup d "Profile Summary").getD (PyVal.str "No summary available"))],
        processing := false, counts := ⟨1, 1, 1⟩, halted := false } := by
  have hjoin : (if pyTruthy (PyVal.list (mks.map PyVal.str)) then
                  (pyJoin ", " (PyVal.list (mks.map PyVal.str))).map Widget.writeText
                else Except.ok (Widget.writeText "No critical missing keywords found!"))
      = Except.ok (Widget.writeText (if mks.isEmpty then "No critical missing keywords found!"
                                     else String.intercalate ", " mks)) := by
    cases mks with
    | nil => rfl
    | cons a t => simp [pyTruthy, pyJoin, asStrList, asStrList_map_str, Except.map]
  rcases hmk with hmk | ⟨hmk, hmks⟩
  · unfold analyzeAction analyzeBody
    simp only [hjd, hex, hgem, hjson, pyGet]
    simp [hmk, hjoin]
  · subst hmks
    unfold analyzeAction analyzeBody
    simp only [hjd, hex, hgem, hjson, pyGet]
    simp [hmk, pyTruthy]

theorem analysis_render_defaults_witness :
    analyzeAction sampleEnvDict "We need Go developers" (Option.some "PDFBYTES") =
      { widgets := [Widget.spinner "📊 Analyzing your resume...",
                    Widget.successBox "✨ Analysis Complete!",
                    Widget.metric "Match Score"
                      ((dictLookup analysisDict "JD Match").getD (PyVal.str "N/A")),
                    Widget.subheader "Missing Keywords",
                    Widget.writeText
                      (if (["Kubernetes", "Go"] : List String).isEmpty then
                        "No critical missing keywords found!"
                       else String.intercalate ", " ["Kubernetes", "Go"]),
                    Widget.subheader "Profile Summary",
                    Widget.writeVal
                      ((dictLookup analysisDict "Profile Summary").getD
                        (PyVal.str "No summary available"))],
        processing := false, counts := ⟨1, 1, 1⟩, halted := false } :=
  analysis_render_defaults sampleEnvDict "We need Go developers" "PDFBYTES" "PDFBYTES"
    "RESPONSE" analysisDict ["Kubernetes", "Go"] (by decide) rfl rfl rfl
    (Or.inl (by simp [analysisDict, dictLookup]))

/-- C10: When the decoded object's `MissingKeywords` value is an empty list
or the key is absent, the keywords section renders the fixed text about no
critical missing keywords, not the comma-space join of the empty sequence. -/
theorem empty_keywords_placeholder (env : Env) (jd file rt resp : String)
    (d : List (String × PyVal))
    (hjd : jd ≠ "")
    (hex : env.extract_pdf_text file = Except.ok rt)
    (hgem : env.get_gemini_response (env.prepare_prompt rt jd) = Except.ok resp)
    (hjson : env.json_loads resp = Except.ok (PyVal.dict d))
    (hmk : dictLookup d "MissingKeywords" = Option.some (PyVal.list []) ∨
           dictLookup d "MissingKeywords" = Option.none) :
    analyzeAction env jd (Option.some file) =
      { widgets := [Widget.spinner "📊 Analyzing your resume...",
                    Widget.successBox "✨ Analysis Complete!",
                    Widget.metric "Match Score" ((dictLookup d "JD Match").getD (PyVal.str "N/A")),
                    Widget.subheader "Missing Keywords",
                    Widget.writeText "No critical missing keywords found!",
                    Widget.subheader "Profile Summary",
                    Widget.writeVal
                      ((dictLookup d "Profile Summary").getD (PyVal.str "No summary available"))],
        processing := false, counts := ⟨1, 1, 1⟩, halted := false } := by
  rcases hmk with hmk | hmk <;>
  · unfold analyzeAction analyzeBody
    simp only [hjd, hex, hgem, hjson, pyGet]
    simp [hmk, pyTruthy]

theorem empty_keywords_placeholder_witness :
    analyzeAction sampleEnvEmptyKw "We need Go developers" (Option.some "PDFBYTES") =
      { widgets := [Widget.spinner "📊 Analyzing your resume...",
                    Widget.successBox "✨ Analysis Complete!",
                    Widget.metric "Match Score"
                      ((dictLookup [("JD Match", PyVal.str "10%"),
                                    ("MissingKeywords", PyVal.list [])] "JD Match").getD
                        (PyVal.str "N/A")),
                    Widget.subheader "Missing Keywords",
                    Widget.writeText "No critical missing keywords found!",
                    Widget.subheader "Profile Summary",
                    Widget.writeVal
                      ((dictLookup [("JD Match", PyVal.str "10%"),
                                    ("MissingKeywords", PyVal.list [])] "Profile Summary").getD
                        (PyVal.str "No summary available"))],
        processing := false, counts := ⟨1, 1, 1⟩, halted := false } :=
  empty_keywords_placeholder sampleEnvEmptyKw "We need Go developers" "PDFBYTES" "PDFBYTES"
    "RESPONSE" [("JD Match", PyVal.str "10%"), ("MissingKeywords", PyVal.list [])]
    (by decide) rfl rfl rfl (Or.inl (by simp [dictLookup]))

/-- C7: When `GOOGLE_API_KEY` is absent the run renders only the missing-key
error and nothing else (no sidebar, no form, no buttons), makes zero
external calls and leaves the state untouched; the same fatal halt happens
when configuring the generative client fails. -/
theorem missing_api_key_halts (env : Env) (inp : Inputs) (p0 : Bool) (ev : Event) :
    mainRun env Option.none inp p0 ev =
      { widgets := [Widget.errorBox "Please set the GOOGLE_API_KEY in your .env file"],
        processing := p0, counts := Counts.zero } ∧
    (∀ key e, env.configure_genai key = Except.error e →
      mainRun env (Option.some key) inp p0 ev =
        { widgets := [Widget.errorBox ("Failed to configure API: " ++ e)],
          processing := p0, counts := Counts.zero }) := by
  constructor
  · rfl
  · intro key e h
    simp [mainRun, h]

theorem missing_api_key_halts_witness :
    mainRun sampleEnvCfgFail Option.none sampleInputs false Event.noEvent =
      { widgets := [Widget.errorBox "Please set the GOOGLE_API_KEY in your .env file"],
        processing := false, counts := Counts.zero } ∧
    mainRun sampleEnvCfgFail (Option.some "k") sampleInputs false Event.noEvent =
      { widgets := [Widget.errorBox ("Failed to configure API: " ++ "invalid key")],
        processing := false, counts := Counts.zero } :=
  ⟨(missing_api_key_halts sampleEnvCfgFail sampleInputs false Event.noEvent).1,
   (missing_api_key_halts sampleEnvCfgFail sampleInputs false Event.noEvent).2
     "k" "invalid key" rfl⟩

/-- C8: A Generate Cover Letter click that passes validation in a run where
Analyze did not execute references the never-assigned local `resume_text`:
the f-string raises `NameError`, an error is shown instead of a cover
letter, no API call is made, and `processing` ends false. -/
theorem cover_letter_undefined_resume (env : Env) (key : String) (u : Unit) (inp : Inputs)
    (hcfg : env.configure_genai key = Except.ok u)
    (hcn : inp.company_name ≠ "") (hjt : inp.job_title ≠ "") :
    mainRun env (Option.some key) inp false Event.coverClick =
      { widgets := formWidgets ++ [Widget.button "Analyze Resume" false,
                                   Widget.button "Generate Cover Letter" false,
                                   Widget.spinner "📝 Generating cover letter...",
                                   Widget.errorBox "An error occurred: name resume_text is not defined"],
        processing := false, counts := Counts.zero } := by
  simp [mainRun, hcfg, coverAction, hcn, hjt]

theorem cover_letter_undefined_resume_witness :
    mainRun sampleEnv (Option.some "k") sampleInputs false Event.coverClick =
      { widgets := formWidgets ++ [Widget.button "Analyze Resume" false,
                                   Widget.button "Generate Cover Letter" false,
                                   Widget.spinner "📝 Generating cover letter...",
                                   Widget.errorBox "An error occurred: name resume_text is not defined"],
        processing := false, counts := Counts.zero } :=
  cover_letter_undefined_resume sampleEnv "k" Unit.unit sampleInputs rfl
    (by decide) (by decide)
